import Mathlib

/-!
Verification of the WorkerApp construction-management backend
(src/backend/server.py) against its natural-language specification.

The embedding follows the source closely:
* monetary amounts and percentages (Python floats) are modelled as `ℚ`;
* timestamps (`datetime`) are modelled as `Nat` instants, ordered as the
  store's `$gte` comparison orders datetimes;
* the document store is modelled by passing each collection as a list,
  `find(filter)` becomes `List.filter`, `find_one(filter)` becomes
  `List.find?`, `to_list(1000)` becomes `List.take 1000`, and
  `replace_one` replaces the first matching document;
* Python's `Optional[str]` becomes `Option String`, and the truthiness
  test `if project_id:` is modelled explicitly (both `None` and the empty
  string are falsy).
-/

namespace WorkerApp

/-- Model of `WorkSection` (server.py lines 64-66). -/
structure WorkSection where
  name : String
  percentage : ℚ
  deriving Repr, DecidableEq

/-- Model of `Project` (server.py lines 68-83). `type` is a Lean keyword, so the
field is named `type_`; `created_at` is a `Nat` instant. -/
structure Project where
  id : String
  user_id : String
  name : String
  type_ : String
  work_sections : List WorkSection
  floors_count : Int
  address : String
  contact_phone1 : String
  contact_phone2 : Option String
  total_amount : ℚ
  progress_percentage : ℚ
  building_config : Option (List (String × String))
  street_config : Option (List (String × String))
  status : String
  created_at : Nat
  deriving Repr, DecidableEq

/-- Payload model `ProjectCreate` (server.py lines 85-95): the fields a caller
supplies on create/update; `user_id`, `id`, `progress_percentage`, `status`,
`created_at` are absent and take schema defaults. -/
structure ProjectCreate where
  name : String
  type_ : String
  work_sections : List WorkSection
  floors_count : Int
  address : String
  contact_phone1 : String
  contact_phone2 : Option String
  total_amount : ℚ
  building_config : Option (List (String × String))
  street_config : Option (List (String × String))
  deriving Repr, DecidableEq

/-- Model of `Worker` (server.py lines 97-105). -/
structure Worker where
  id : String
  user_id : String
  name : String
  id_number : Option String
  id_image : Option String
  payment_type : String
  payment_amount : ℚ
  created_at : Nat
  deriving Repr, DecidableEq

/-- Model of `Expense` (server.py lines 114-121); `project_id` is optional,
`type` is a Lean keyword so the field is named `type_`. -/
structure Expense where
  id : String
  user_id : String
  project_id : Option String
  type_ : String
  amount : ℚ
  description : Option String
  date : Nat
  deriving Repr, DecidableEq

/-- Model of `Income` (server.py lines 129-135). -/
structure Income where
  id : String
  user_id : String
  project_id : String
  amount_before_tax : ℚ
  description : Option String
  date : Nat
  deriving Repr, DecidableEq

/-- Model of `WorkDay` (the work-log record, server.py lines 142-152). -/
structure WorkDay where
  id : String
  user_id : String
  project_id : String
  work_section : String
  floor_number : Int
  work_percentage : ℚ
  workers : List String
  vehicle_used : Option String
  notes : Option String
  date : Nat
  deriving Repr, DecidableEq

/-! ## Financial report (server.py lines 322-378) -/

/-- The date filter built at server.py lines 328-339: `monthly` keeps records
dated on/after `monthStart` (the first instant of the current calendar month),
`yearly` on/after `yearStart` (the first instant of the current calendar
year); any other `period` value, including `none`, leaves `date_filter`
empty. -/
def dateMatch (period : Option String) (monthStart yearStart : Nat)
    (rdate : Nat) : Bool :=
  if period = some "monthly" then decide (monthStart ≤ rdate)
  else if period = some "yearly" then decide (yearStart ≤ rdate)
  else true

/-- The project filter built at server.py lines 341-344: `if project_id:` is a
Python truthiness test, so `None` and the empty string both leave
`project_filter` empty; otherwise the record's `project_id` must equal the
given one. -/
def projectMatch (project_id : Option String) (rpid : Option String) : Bool :=
  match project_id with
  | none => true
  | some pid => if pid = "" then true else rpid == some pid

/-- The combined Mongo filter applied to expenses, incomes and work-logs at
server.py lines 346-349: owner scope, date filter, project filter. -/
def financialMatch (uid : String) (period : Option String)
    (project_id : Option String) (monthStart yearStart : Nat)
    (ruid : String) (rpid : Option String) (rdate : Nat) : Bool :=
  ruid == uid && dateMatch period monthStart yearStart rdate
    && projectMatch project_id rpid

/-- The worker lookup and daily-scheme contribution of one worker id inside
the accrual loop (server.py lines 364-367): the first worker whose `id`
matches contributes `payment_amount` when its `payment_type` is `"daily"`,
else 0; an unresolved id contributes 0. -/
def workerContrib (workers : List Worker) (worker_id : String) : ℚ :=
  match workers.find? (fun w => w.id == worker_id) with
  | some w => if w.payment_type = "daily" then w.payment_amount else 0
  | none => 0

/-- The inner loop of the accrual (server.py lines 363-367): each occurrence
of a worker id in the work-log's `workers` list contributes once. -/
def perWorkdayPayment (workers : List Worker) (wd : WorkDay) : ℚ :=
  (wd.workers.map (workerContrib workers)).sum

/-- Matched expenses of a financial-report call (server.py line 352,
`find(expense_filter).to_list(1000)`). -/
def matchedExpenses (uid : String) (period project_id : Option String)
    (monthStart yearStart : Nat) (expenses : List Expense) : List Expense :=
  (expenses.filter (fun e =>
    financialMatch uid period project_id monthStart yearStart
      e.user_id e.project_id e.date)).take 1000

/-- Matched incomes of a financial-report call (server.py line 353). -/
def matchedIncomes (uid : String) (period project_id : Option String)
    (monthStart yearStart : Nat) (incomes : List Income) : List Income :=
  (incomes.filter (fun i =>
    financialMatch uid period project_id monthStart yearStart
      i.user_id (some i.project_id) i.date)).take 1000

/-- Matched work-logs of a financial-report call (server.py line 354). -/
def matchedWorkdays (uid : String) (period project_id : Option String)
    (monthStart yearStart : Nat) (workdays : List WorkDay) : List WorkDay :=
  (workdays.filter (fun w =>
    financialMatch uid period project_id monthStart yearStart
      w.user_id (some w.project_id) w.date)).take 1000

/-- The caller's workers (server.py line 355: user-scoped, no date or project
filter, capped at 1000). -/
def ownWorkers (uid : String) (workers : List Worker) : List Worker :=
  (workers.filter (fun w => w.user_id == uid)).take 1000

/-- The JSON object returned by `get_financial_report`
(server.py lines 371-378). -/
structure FinancialReport where
  total_incomes : ℚ
  total_expenses : ℚ
  worker_payments : ℚ
  profit : ℚ
  period : Option String
  project_id : Option String
  deriving Repr, DecidableEq

/-- Embedding of `get_financial_report` (server.py lines 322-378). `monthStart` and
`yearStart` stand for the first instants of the current calendar month and
year computed from `datetime.utcnow()` at lines 332-338; the four list
arguments are the store's collections. -/
def get_financial_report (uid : String) (period project_id : Option String)
    (monthStart yearStart : Nat) (expenses : List Expense)
    (incomes : List Income) (workdays : List WorkDay)
    (workers : List Worker) : FinancialReport :=
  let es := matchedExpenses uid period project_id monthStart yearStart expenses
  let is := matchedIncomes uid period project_id monthStart yearStart incomes
  let ws := matchedWorkdays uid period project_id monthStart yearStart workdays
  let wks := ownWorkers uid workers
  let total_expenses := (es.map (fun e => e.amount)).sum
  let total_incomes := (is.map (fun i => i.amount_before_tax)).sum
  let worker_payments := (ws.map (perWorkdayPayment wks)).sum
  { total_incomes := total_incomes
    total_expenses := total_expenses
    worker_payments := worker_payments
    profit := total_incomes - total_expenses - worker_payments
    period := period
    project_id := project_id }

/-! ## Per-project summary (server.py lines 380-441) -/

/-- One entry of the list returned by `get_projects_financial_summary`
(server.py lines 429-439). -/
structure ProjectSummary where
  project_id : String
  project_name : String
  total_amount : ℚ
  total_expenses : ℚ
  total_incomes : ℚ
  worker_payments : ℚ
  profit : ℚ
  progress_percentage : ℚ
  status : String
  deriving Repr, DecidableEq

/-- The per-work-log progress term (server.py lines 423-427): locate the
project's work section whose `name` equals the work-log's `work_section`;
if found contribute `work_percentage * section.percentage / 100`, else 0. -/
def sectionTerm (project : Project) (wd : WorkDay) : ℚ :=
  match project.work_sections.find? (fun s => s.name == wd.work_section) with
  | some s => wd.work_percentage * s.percentage / 100
  | none => 0

/-- The progress accumulation (server.py lines 420-427): skipped entirely
when the project has no work sections (`if project.get("work_sections"):` is
falsy on an empty list), else the sum of the per-work-log terms. -/
def totalWorkDone (project : Project) (workdays : List WorkDay) : ℚ :=
  if project.work_sections.isEmpty then 0
  else (workdays.map (sectionTerm project)).sum

/-- The expenses of one project in the summary (server.py lines 388-391). -/
def projectExpenses (uid pid : String) (expenses : List Expense) :
    List Expense :=
  (expenses.filter (fun e => e.user_id == uid && e.project_id == some pid)).take 1000

/-- The incomes of one project in the summary (server.py lines 394-397). -/
def projectIncomes (uid pid : String) (incomes : List Income) : List Income :=
  (incomes.filter (fun i => i.user_id == uid && i.project_id == pid)).take 1000

/-- The work-logs of one project in the summary (server.py lines 400-403). -/
def projectWorkdays (uid pid : String) (workdays : List WorkDay) :
    List WorkDay :=
  (workdays.filter (fun w => w.user_id == uid && w.project_id == pid)).take 1000

/-- The loop body of `get_projects_financial_summary` for one project
(server.py lines 386-439). -/
def projectSummary (uid : String) (project : Project)
    (expenses : List Expense) (incomes : List Income)
    (workdays : List WorkDay) (workers : List Worker) : ProjectSummary :=
  let pexp := projectExpenses uid project.id expenses
  let pinc := projectIncomes uid project.id incomes
  let pwd := projectWorkdays uid project.id workdays
  let wks := ownWorkers uid workers
  let worker_payments := (pwd.map (perWorkdayPayment wks)).sum
  let total_expenses := (pexp.map (fun e => e.amount)).sum
  let total_incomes := (pinc.map (fun i => i.amount_before_tax)).sum
  { project_id := project.id
    project_name := project.name
    total_amount := project.total_amount
    total_expenses := total_expenses
    total_incomes := total_incomes
    worker_payments := worker_payments
    profit := total_incomes - total_expenses - worker_payments
    progress_percentage := min (totalWorkDone project pwd) 100
    status := project.status }

/-- Embedding of `get_projects_financial_summary` (server.py lines 380-441): one summary
per project owned by the caller, in store order, capped at 1000 projects. -/
def get_projects_financial_summary (uid : String) (projects : List Project)
    (expenses : List Expense) (incomes : List Income)
    (workdays : List WorkDay) (workers : List Worker) : List ProjectSummary :=
  ((projects.filter (fun p => p.user_id == uid)).take 1000).map
    (fun p => projectSummary uid p expenses incomes workdays workers)

/-! ## Project CRUD (server.py lines 251-271) -/

/-- Embedding of `get_projects` (server.py lines 251-254): the caller's projects, capped
at 1000. -/
def get_projects (projects : List Project) (uid : String) : List Project :=
  (projects.filter (fun p => p.user_id == uid)).take 1000

/-- Embedding of `get_project` (server.py lines 256-261): first project matching both id
and owner, else HTTP 404. -/
def get_project (projects : List Project) (project_id uid : String) :
    Except Nat Project :=
  match projects.find? (fun p => p.id == project_id && p.user_id == uid) with
  | some p => Except.ok p
  | none => Except.error 404

/-- Construction of the replacement document at server.py line 269:
`Project(**project_data.dict(), id=project_id, user_id=current_user["id"])`.
Fields absent from the payload take their schema defaults
(`progress_percentage = 0.0`, `status = "active"`, `created_at` fresh,
modelled by the `now` argument). -/
def projectOfCreate (d : ProjectCreate) (id uid : String) (now : Nat) :
    Project :=
  { id := id
    user_id := uid
    name := d.name
    type_ := d.type_
    work_sections := d.work_sections
    floors_count := d.floors_count
    address := d.address
    contact_phone1 := d.contact_phone1
    contact_phone2 := d.contact_phone2
    total_amount := d.total_amount
    progress_percentage := 0
    building_config := d.building_config
    street_config := d.street_config
    status := "active"
    created_at := now }

/-- Mongo `replace_one({"id": project_id}, doc)` (server.py line 270):
replace the first document whose `id` matches. -/
def replaceOne (projects : List Project) (project_id : String)
    (doc : Project) : List Project :=
  match projects with
  | [] => []
  | p :: rest =>
    if p.id == project_id then doc :: rest
    else p :: replaceOne rest project_id doc

/-- Embedding of `update_project` (server.py lines 263-271), as a function from the stored
collection to the response (HTTP 404 or the replacement document) paired with
the post-state of the collection; on 404 the handler raises before writing,
so the collection is returned unchanged. -/
def update_project (projects : List Project) (project_id : String)
    (project_data : ProjectCreate) (uid : String) (now : Nat) :
    Except Nat Project × List Project :=
  match projects.find? (fun p => p.id == project_id && p.user_id == uid) with
  | none => (Except.error 404, projects)
  | some _ =>
    let updated := projectOfCreate project_data project_id uid now
    (Except.ok updated, replaceOne projects project_id updated)

/-! ## Income tax reconstruction -/

/-- Modelled from the spec: the income-creation tax computation deriving
`amount_before_tax` from an amount including tax and a tax percentage is not
part of src/backend/server.py (the `Income` model at lines 129-140 stores
`amount_before_tax` directly); the spec gives
`before_tax = with_tax / (1 + tax_percent/100)`. -/
def amountBeforeTax (amount_with_tax tax_percentage : ℚ) : ℚ :=
  amount_with_tax / (1 + tax_percentage / 100)

/-! ## Concrete store documents used by witnesses and counterexamples -/

/-- A project with a 50%-weighted section "A", used to exhibit progress
behaviour on concrete inputs. -/
def projA : Project :=
  { id := "p1", user_id := "u1", name := "P", type_ := "building",
    work_sections := [{ name := "A", percentage := 50 }], floors_count := 1,
    address := "addr", contact_phone1 := "050", contact_phone2 := none,
    total_amount := 1000, progress_percentage := 0, building_config := none,
    street_config := none, status := "active", created_at := 0 }

/-- A work-log on project `p1` reporting a negative completion percentage for
section "A". -/
def negWorkday : WorkDay :=
  { id := "wd1", user_id := "u1", project_id := "p1", work_section := "A",
    floor_number := 1, work_percentage := -10, workers := [],
    vehicle_used := none, notes := none, date := 0 }

/-- A work-log naming a section "B" that `projA` does not have. -/
def wdB : WorkDay :=
  { id := "wd3", user_id := "u1", project_id := "p1", work_section := "B",
    floor_number := 1, work_percentage := 30, workers := [],
    vehicle_used := none, notes := none, date := 0 }

/-- A daily-scheme worker paid 100 per work-log occurrence. -/
def dailyWorker : Worker :=
  { id := "w1", user_id := "u1", name := "D", id_number := none,
    id_image := none, payment_type := "daily", payment_amount := 100,
    created_at := 0 }

/-- An hourly-scheme worker. -/
def hourlyWorker : Worker :=
  { id := "w2", user_id := "u1", name := "H", id_number := none,
    id_image := none, payment_type := "hourly", payment_amount := 7,
    created_at := 0 }

/-- A work-log whose `workers` list contains the same worker id twice. -/
def dupWorkday : WorkDay :=
  { id := "wd2", user_id := "u1", project_id := "p1", work_section := "A",
    floor_number := 1, work_percentage := 0, workers := ["w1", "w1"],
    vehicle_used := none, notes := none, date := 0 }

/-- An expense of user `u1` on project "x". -/
def expX : Expense :=
  { id := "e1", user_id := "u1", project_id := some "x", type_ := "fuel",
    amount := 5, description := none, date := 0 }

/-- A stored version of project `p1` whose `status` and
`progress_percentage` differ from the schema defaults. -/
def projStored : Project :=
  { projA with status := "completed", progress_percentage := 50 }

/-- An update payload for project `p1` omitting `status` and
`progress_percentage`. -/
def payloadQ : ProjectCreate :=
  { name := "Q", type_ := "street", work_sections := [], floors_count := 2,
    address := "other", contact_phone1 := "052", contact_phone2 := none,
    total_amount := 500, building_config := none, street_config := none }

/-! ## Theorems -/

/-- C1: in both the financial report and the per-project summary, the
returned `profit` equals `total_incomes - total_expenses - worker_payments`
exactly, for every set of records; on the empty record set all four values
are 0. -/
theorem profit_identity :
    (∀ uid period project_id ms ys es is wds wks,
      (get_financial_report uid period project_id ms ys es is wds wks).profit
        = (get_financial_report uid period project_id ms ys es is wds wks).total_incomes
          - (get_financial_report uid period project_id ms ys es is wds wks).total_expenses
          - (get_financial_report uid period project_id ms ys es is wds wks).worker_payments)
    ∧ (∀ uid project es is wds wks,
      (projectSummary uid project es is wds wks).profit
        = (projectSummary uid project es is wds wks).total_incomes
          - (projectSummary uid project es is wds wks).total_expenses
          - (projectSummary uid project es is wds wks).worker_payments)
    ∧ (∀ uid period project_id ms ys,
      get_financial_report uid period project_id ms ys [] [] [] []
        = { total_incomes := 0, total_expenses := 0, worker_payments := 0,
            profit := 0, period := period, project_id := project_id })
    ∧ (∀ uid project,
      (projectSummary uid project [] [] [] []).total_incomes = 0
        ∧ (projectSummary uid project [] [] [] []).total_expenses = 0
        ∧ (projectSummary uid project [] [] [] []).worker_payments = 0
        ∧ (projectSummary uid project [] [] [] []).profit = 0) := by
  refine ⟨fun _ _ _ _ _ _ _ _ _ => rfl, fun _ _ _ _ _ _ => rfl, ?_, ?_⟩
  · intro uid period project_id ms ys
    simp [get_financial_report, matchedExpenses, matchedIncomes,
      matchedWorkdays, ownWorkers]
  · intro uid project
    refine ⟨rfl, rfl, ?_, ?_⟩ <;>
      simp [projectSummary, projectExpenses, projectIncomes, projectWorkdays,
        ownWorkers]

/-- C8: `amount_before_tax` is reconstructed from an amount-with-tax and a
tax percentage as `with_tax / (1 + tax/100)`, within tolerance 1e-2 (here
exactly); in particular `(29250, 17) ↦ 25000`, `(23000, 15) ↦ 20000`,
`(10000, 0) ↦ 10000`. -/
theorem amountBeforeTax_formula :
    (∀ wt t : ℚ, |amountBeforeTax wt t - wt / (1 + t / 100)| ≤ 1 / 100)
    ∧ amountBeforeTax 29250 17 = 25000
    ∧ amountBeforeTax 23000 15 = 20000
    ∧ amountBeforeTax 10000 0 = 10000 := by
  refine ⟨fun wt t => ?_, by norm_num [amountBeforeTax],
    by norm_num [amountBeforeTax], by norm_num [amountBeforeTax]⟩
  simp only [amountBeforeTax, sub_self, abs_zero]
  norm_num

/-- C10: the progress clamp is one-sided: a work-log with negative
`work_percentage` matching a positively weighted section yields a
`progress_percentage` strictly below 0 (here `-10 * 50 / 100 = -5`). -/
theorem progress_can_be_negative :
    (projectSummary "u1" projA [] [] [negWorkday] []).progress_percentage = -5
    ∧ (projectSummary "u1" projA [] [] [negWorkday] []).progress_percentage
        < 0 := by
  have h :
      (projectSummary "u1" projA [] [] [negWorkday] []).progress_percentage
        = -5 := by
    simp [projectSummary, projectWorkdays, totalWorkDone, sectionTerm, projA,
      negWorkday, List.find?, min_def]
    norm_num
  exact ⟨h, by rw [h]; norm_num⟩

/-- C2: `worker_payments` in the financial report is the sum over matched
work-log records of the referenced workers' contributions, where a resolved
worker contributes its `payment_amount` only under the `daily` scheme,
`hourly`/`monthly` workers contribute zero, and an unresolved worker id
contributes zero. -/
theorem worker_payments_accrual :
    (∀ uid period project_id ms ys
        (es : List Expense) (is : List Income) wds wks,
      (get_financial_report uid period project_id ms ys es is wds wks).worker_payments
        = ((matchedWorkdays uid period project_id ms ys wds).map
            (fun wd =>
              (wd.workers.map (workerContrib (ownWorkers uid wks))).sum)).sum)
    ∧ (∀ workers wid, workers.find? (fun w => w.id == wid) = none →
        workerContrib workers wid = 0)
    ∧ (∀ workers wid w, workers.find? (fun w => w.id == wid) = some w →
        w.payment_type = "hourly" ∨ w.payment_type = "monthly" →
        workerContrib workers wid = 0)
    ∧ (∀ workers wid w, workers.find? (fun w => w.id == wid) = some w →
        w.payment_type = "daily" →
        workerContrib workers wid = w.payment_amount) := by
  refine ⟨fun _ _ _ _ _ _ _ _ _ => rfl, ?_, ?_, ?_⟩
  · intro workers wid h
    unfold workerContrib
    rw [h]
  · intro workers wid w h hpt
    simp only [workerContrib, h]
    rcases hpt with hpt | hpt <;> rw [hpt] <;> simp
  · intro workers wid w h hpt
    simp only [workerContrib, h]
    rw [if_pos hpt]

/-- C2 witness: in a concrete store, an unknown id contributes 0, an hourly
worker contributes 0, and a daily worker contributes its payment amount. -/
theorem worker_payments_accrual_witness :
    workerContrib [dailyWorker, hourlyWorker] "w9" = 0
    ∧ workerContrib [dailyWorker, hourlyWorker] "w2" = 0
    ∧ workerContrib [dailyWorker, hourlyWorker] "w1" = 100 := by
  refine ⟨worker_payments_accrual.2.1 _ _ (by decide),
    worker_payments_accrual.2.2.1 _ _ hourlyWorker (by decide) (Or.inl rfl),
    worker_payments_accrual.2.2.2 _ _ dailyWorker (by decide) rfl⟩

/-- C3: `progress_percentage` of a project summary is the accumulated
`work_percentage * section.percentage / 100` over that project's work-logs —
a found section contributes its term, an unmatched section name contributes
nothing — capped at 100, and hence never exceeds 100. -/
theorem progress_percentage_spec :
    (∀ uid project es is wds wks,
      (projectSummary uid project es is wds wks).progress_percentage
        = min (totalWorkDone project (projectWorkdays uid project.id wds)) 100)
    ∧ (∀ project wds,
        totalWorkDone project wds = (wds.map (sectionTerm project)).sum)
    ∧ (∀ project wd s,
        project.work_sections.find? (fun s => s.name == wd.work_section)
          = some s →
        sectionTerm project wd = wd.work_percentage * s.percentage / 100)
    ∧ (∀ project wd,
        project.work_sections.find? (fun s => s.name == wd.work_section)
          = none →
        sectionTerm project wd = 0)
    ∧ (∀ uid project es is wds wks,
      (projectSummary uid project es is wds wks).progress_percentage
        ≤ 100) := by
  refine ⟨fun _ _ _ _ _ _ => rfl, ?_, ?_, ?_, ?_⟩
  · intro project wds
    unfold totalWorkDone
    split
    · next h =>
      rw [List.isEmpty_iff] at h
      have hz : ∀ wd ∈ wds, sectionTerm project wd = 0 := by
        intro wd _
        unfold sectionTerm
        rw [h]
        rfl
      rw [List.map_congr_left hz]
      simp
    · rfl
  · intro project wd s h
    unfold sectionTerm
    rw [h]
  · intro project wd h
    unfold sectionTerm
    rw [h]
  · intro uid project es is wds wks
    exact min_le_right _ _

/-- C3 witness: on concrete inputs the matched section "A" (weight 50)
contributes `-10 * 50 / 100`, a work-log naming the unknown section "B"
contributes 0, and a concrete summary's progress does not exceed 100. -/
theorem progress_percentage_spec_witness :
    sectionTerm projA negWorkday = -10 * 50 / 100
    ∧ sectionTerm projA wdB = 0
    ∧ (projectSummary "u1" projA [] [] [negWorkday] []).progress_percentage
        ≤ 100 :=
  ⟨progress_percentage_spec.2.2.1 projA negWorkday
      { name := "A", percentage := 50 } (by decide),
    progress_percentage_spec.2.2.2.1 projA wdB (by decide),
    progress_percentage_spec.2.2.2.2 "u1" projA [] [] [negWorkday] []⟩

/-- C4 counterexample: a single work-log entry listing the same daily
worker id twice credits that worker's `payment_amount` twice (200 = 2 × 100),
so the contribution is not "at most once per work-log entry". -/
theorem daily_accrual_not_once_per_entry :
    perWorkdayPayment [dailyWorker] dupWorkday = 200
    ∧ dailyWorker.payment_amount = 100
    ∧ ¬ perWorkdayPayment [dailyWorker] dupWorkday
        ≤ dailyWorker.payment_amount := by
  have h : perWorkdayPayment [dailyWorker] dupWorkday = 200 := by
    simp [perWorkdayPayment, dupWorkday, workerContrib, dailyWorker,
      List.find?]
    norm_num
  refine ⟨h, rfl, ?_⟩
  rw [h]
  norm_num [dailyWorker]

/-- C4 (amended): the accrual credits a referenced worker once per
occurrence of its id in the work-log entry's `workers` list: the per-entry
payment is the sum of per-id contributions taken with multiplicity, and the
occurrences of a fixed id contribute exactly (number of occurrences) times
that id's contribution. -/
theorem daily_accrual_per_occurrence :
    (∀ workers wd, perWorkdayPayment workers wd
        = (wd.workers.map (workerContrib workers)).sum)
    ∧ (∀ workers (wd : WorkDay) wid,
        ((wd.workers.filter (fun x => x == wid)).map
            (workerContrib workers)).sum
          = (wd.workers.count wid : ℚ) * workerContrib workers wid) := by
  refine ⟨fun _ _ => rfl, ?_⟩
  intro workers wd wid
  induction wd.workers with
  | nil => simp
  | cons a l ih =>
    by_cases hq : a = wid
    · subst hq
      simp [List.count_cons, ih]
      ring
    · have hb : (a == wid) = false := by
        simp [hq]
      simp [List.count_cons, hb, ih]

/-- C5 counterexample: with `project_id` given as the empty string, the
report applies no project restriction (Python's `if project_id:` is falsy on
`""`): an expense carrying project id "x", not `""`, is matched and counted. -/
theorem empty_project_id_not_restricted :
    expX.project_id ≠ some ""
    ∧ matchedExpenses "u1" none (some "") 0 0 [expX] = [expX]
    ∧ (get_financial_report "u1" none (some "") 0 0 [expX] [] [] []).total_expenses
        = 5 := by
  refine ⟨by decide, by decide, ?_⟩
  simp [get_financial_report, matchedExpenses, matchedIncomes,
    matchedWorkdays, ownWorkers, financialMatch, dateMatch, projectMatch,
    expX]

/-- C5 (amended): `monthly` matches exactly the caller's records dated
on/after the first instant of the current month, `yearly` those on/after the
first instant of the current year, an absent period applies no date
restriction, and a *non-empty* `project_id` restricts to records carrying
that project id (a given empty-string `project_id`, being falsy, applies no
restriction); the report totals range over exactly the so-matched records. -/
theorem financial_filter_spec :
    (∀ uid project_id ms ys ruid rpid rdate,
      (financialMatch uid (some "monthly") project_id ms ys ruid rpid rdate
          = true
        ↔ ruid = uid ∧ ms ≤ rdate ∧ projectMatch project_id rpid = true))
    ∧ (∀ uid project_id ms ys ruid rpid rdate,
      (financialMatch uid (some "yearly") project_id ms ys ruid rpid rdate
          = true
        ↔ ruid = uid ∧ ys ≤ rdate ∧ projectMatch project_id rpid = true))
    ∧ (∀ uid project_id ms ys ruid rpid rdate,
      (financialMatch uid none project_id ms ys ruid rpid rdate = true
        ↔ ruid = uid ∧ projectMatch project_id rpid = true))
    ∧ (∀ pid rpid, pid ≠ "" →
        (projectMatch (some pid) rpid = true ↔ rpid = some pid))
    ∧ (∀ rpid, projectMatch none rpid = true)
    ∧ (∀ uid period project_id ms ys (es : List Expense)
          (is : List Income) wds wks,
        (get_financial_report uid period project_id ms ys es is wds wks).total_expenses
          = (((es.filter (fun e =>
                financialMatch uid period project_id ms ys
                  e.user_id e.project_id e.date)).take 1000).map
              (fun e => e.amount)).sum
        ∧ (get_financial_report uid period project_id ms ys es is wds wks).total_incomes
          = (((is.filter (fun i =>
                financialMatch uid period project_id ms ys
                  i.user_id (some i.project_id) i.date)).take 1000).map
              (fun i => i.amount_before_tax)).sum
        ∧ (get_financial_report uid period project_id ms ys es is wds wks).worker_payments
          = (((wds.filter (fun w =>
                financialMatch uid period project_id ms ys
                  w.user_id (some w.project_id) w.date)).take 1000).map
              (perWorkdayPayment (ownWorkers uid wks))).sum) := by
  refine ⟨?_, ?_, ?_, ?_, ?_, fun _ _ _ _ _ _ _ _ _ => ⟨rfl, rfl, rfl⟩⟩
  · intro uid project_id ms ys ruid rpid rdate
    simp [financialMatch, dateMatch, and_assoc]
  · intro uid project_id ms ys ruid rpid rdate
    simp [financialMatch, dateMatch, and_assoc]
  · intro uid project_id ms ys ruid rpid rdate
    simp [financialMatch, dateMatch]
  · intro pid rpid hpid
    simp [projectMatch, hpid]
  · intro rpid
    rfl

/-- C5 witness: a non-empty project id "x" restricts matching to records
carrying "x", and a concrete record of the caller dated on/after the month
start with project "x" is matched under `monthly`. -/
theorem financial_filter_spec_witness :
    (projectMatch (some "x") (some "x") = true)
    ∧ financialMatch "u1" (some "monthly") (some "x") 3 0 "u1" (some "x") 5
        = true := by
  have h1 := (financial_filter_spec.2.2.2.1 "x" (some "x") (by decide)).mpr
    rfl
  exact ⟨h1,
    (financial_filter_spec.1 "u1" (some "x") 3 0 "u1" (some "x") 5).mpr
      ⟨rfl, by norm_num, h1⟩⟩

/-- C6: updating a project fails with 404 and leaves the store unchanged
when no project with that id is owned by the caller; otherwise the stored
project is fully replaced: every mutable field comes from the payload,
omitted fields (`status`, `progress_percentage`) take their schema defaults
(`"active"`, 0) rather than the previous stored values, and `id` and
`user_id` are those of the found stored project. -/
theorem update_project_spec :
    (∀ projects pid (payload : ProjectCreate) uid now,
      projects.find? (fun p => p.id == pid && p.user_id == uid) = none →
        update_project projects pid payload uid now
          = (Except.error 404, projects))
    ∧ (∀ projects pid (payload : ProjectCreate) uid now p0,
      projects.find? (fun p => p.id == pid && p.user_id == uid) = some p0 →
        update_project projects pid payload uid now
          = (Except.ok (projectOfCreate payload pid uid now),
             replaceOne projects pid (projectOfCreate payload pid uid now))
        ∧ projectOfCreate payload pid uid now
          = { id := p0.id, user_id := p0.user_id, name := payload.name,
              type_ := payload.type_,
              work_sections := payload.work_sections,
              floors_count := payload.floors_count,
              address := payload.address,
              contact_phone1 := payload.contact_phone1,
              contact_phone2 := payload.contact_phone2,
              total_amount := payload.total_amount,
              progress_percentage := 0,
              building_config := payload.building_config,
              street_config := payload.street_config,
              status := "active", created_at := now }) := by
  constructor
  · intro projects pid payload uid now h
    simp only [update_project, h]
  · intro projects pid payload uid now p0 h
    have hp := List.find?_some h
    rw [Bool.and_eq_true, beq_iff_eq, beq_iff_eq] at hp
    refine ⟨by simp only [update_project, h], ?_⟩
    simp [projectOfCreate, hp.1, hp.2]

/-- C6 witness: on the empty store the update returns 404 with the store
unchanged; on a store holding `p1` with status "completed" and progress 50,
the update replaces it with the payload's fields, status "active" and
progress 0, keeping id "p1" and owner "u1". -/
theorem update_project_spec_witness :
    update_project [] "p1" payloadQ "u1" 7 = (Except.error 404, [])
    ∧ update_project [projStored] "p1" payloadQ "u1" 7
        = (Except.ok (projectOfCreate payloadQ "p1" "u1" 7),
           replaceOne [projStored] "p1" (projectOfCreate payloadQ "p1" "u1" 7))
    ∧ projectOfCreate payloadQ "p1" "u1" 7
        = { id := projStored.id, user_id := projStored.user_id,
            name := payloadQ.name, type_ := payloadQ.type_,
            work_sections := payloadQ.work_sections,
            floors_count := payloadQ.floors_count,
            address := payloadQ.address,
            contact_phone1 := payloadQ.contact_phone1,
            contact_phone2 := payloadQ.contact_phone2,
            total_amount := payloadQ.total_amount,
            progress_percentage := 0,
            building_config := payloadQ.building_config,
            street_config := payloadQ.street_config,
            status := "active", created_at := 7 } := by
  have h2 := update_project_spec.2 [projStored] "p1" payloadQ "u1" 7
    projStored (by decide)
  exact ⟨update_project_spec.1 [] "p1" payloadQ "u1" 7 rfl, h2.1, h2.2⟩

/-- C7: an entity owned by another user never appears in the caller's
project listing, and get/update of its id yield 404 — the same outcome as
when no project with that id exists at all. -/
theorem ownership_isolation :
    (∀ projects uid (p : Project), p.user_id ≠ uid →
        p ∉ get_projects projects uid)
    ∧ (∀ projects pid uid, (∀ p ∈ projects, p.id = pid → p.user_id ≠ uid) →
        get_project projects pid uid = Except.error 404)
    ∧ (∀ pid uid, get_project [] pid uid = Except.error 404)
    ∧ (∀ projects pid (payload : ProjectCreate) uid now,
        (∀ p ∈ projects, p.id = pid → p.user_id ≠ uid) →
        update_project projects pid payload uid now
          = (Except.error 404, projects)) := by
  have hnone : ∀ (projects : List Project) (pid uid : String),
      (∀ p ∈ projects, p.id = pid → p.user_id ≠ uid) →
      projects.find? (fun p => p.id == pid && p.user_id == uid) = none := by
    intro projects pid uid h
    rw [List.find?_eq_none]
    intro p hp
    simp only [Bool.and_eq_true, beq_iff_eq, not_and]
    exact h p hp
  refine ⟨?_, ?_, ?_, ?_⟩
  · intro projects uid p hne hmem
    have hf := List.mem_of_mem_take hmem
    have := (List.mem_filter.mp hf).2
    rw [beq_iff_eq] at this
    exact hne this
  · intro projects pid uid h
    simp only [get_project, hnone projects pid uid h]
  · intro pid uid
    rfl
  · intro projects pid payload uid now h
    simp only [update_project, hnone projects pid uid h]

/-- C7 witness: caller "u2" does not see project `p1` of user "u1" in the
listing, gets 404 on get and update of its id (store unchanged), identically
to the empty store. -/
theorem ownership_isolation_witness :
    projA ∉ get_projects [projA] "u2"
    ∧ get_project [projA] "p1" "u2" = Except.error 404
    ∧ get_project [] "p1" "u2" = Except.error 404
    ∧ update_project [projA] "p1" payloadQ "u2" 0
        = (Except.error 404, [projA]) :=
  ⟨ownership_isolation.1 [projA] "u2" projA (by decide),
    ownership_isolation.2.1 [projA] "p1" "u2" (by decide),
    ownership_isolation.2.2.1 "p1" "u2",
    ownership_isolation.2.2.2 [projA] "p1" payloadQ "u2" 0 (by decide)⟩

/-- C9: any period value other than "monthly" and "yearly" applies no date
restriction: the report is not rejected, returns the same four totals as a
call with no period, and echoes the supplied period string. -/
theorem unknown_period_no_restriction :
    ∀ uid p project_id ms ys (es : List Expense) (is : List Income) wds wks,
      p ≠ "monthly" → p ≠ "yearly" →
      (get_financial_report uid (some p) project_id ms ys es is wds wks).total_incomes
        = (get_financial_report uid none project_id ms ys es is wds wks).total_incomes
      ∧ (get_financial_report uid (some p) project_id ms ys es is wds wks).total_expenses
        = (get_financial_report uid none project_id ms ys es is wds wks).total_expenses
      ∧ (get_financial_report uid (some p) project_id ms ys es is wds wks).worker_payments
        = (get_financial_report uid none project_id ms ys es is wds wks).worker_payments
      ∧ (get_financial_report uid (some p) project_id ms ys es is wds wks).profit
        = (get_financial_report uid none project_id ms ys es is wds wks).profit
      ∧ (get_financial_report uid (some p) project_id ms ys es is wds wks).period
        = some p := by
  intro uid p project_id ms ys es is wds wks hm hy
  have hfm : ∀ ruid rpid rdate,
      financialMatch uid (some p) project_id ms ys ruid rpid rdate
        = financialMatch uid none project_id ms ys ruid rpid rdate := by
    intro ruid rpid rdate
    simp [financialMatch, dateMatch, hm, hy]
  have he : matchedExpenses uid (some p) project_id ms ys es
      = matchedExpenses uid none project_id ms ys es := by
    unfold matchedExpenses
    rw [List.filter_congr (fun e _ => hfm e.user_id e.project_id e.date)]
  have hi : matchedIncomes uid (some p) project_id ms ys is
      = matchedIncomes uid none project_id ms ys is := by
    unfold matchedIncomes
    rw [List.filter_congr
      (fun i _ => hfm i.user_id (some i.project_id) i.date)]
  have hw : matchedWorkdays uid (some p) project_id ms ys wds
      = matchedWorkdays uid none project_id ms ys wds := by
    unfold matchedWorkdays
    rw [List.filter_congr
      (fun w _ => hfm w.user_id (some w.project_id) w.date)]
  refine ⟨?_, ?_, ?_, ?_, rfl⟩ <;>
    simp only [get_financial_report, he, hi, hw]

/-- C9 witness: the misspelt period "Monthly" is accepted, yields the same
totals as an absent period on a concrete store, and is echoed back. -/
theorem unknown_period_no_restriction_witness :
    (get_financial_report "u1" (some "Monthly") none 3 7 [expX] [] [] []).total_incomes
      = (get_financial_report "u1" none none 3 7 [expX] [] [] []).total_incomes
    ∧ (get_financial_report "u1" (some "Monthly") none 3 7 [expX] [] [] []).total_expenses
      = (get_financial_report "u1" none none 3 7 [expX] [] [] []).total_expenses
    ∧ (get_financial_report "u1" (some "Monthly") none 3 7 [expX] [] [] []).worker_payments
      = (get_financial_report "u1" none none 3 7 [expX] [] [] []).worker_payments
    ∧ (get_financial_report "u1" (some "Monthly") none 3 7 [expX] [] [] []).profit
      = (get_financial_report "u1" none none 3 7 [expX] [] [] []).profit
    ∧ (get_financial_report "u1" (some "Monthly") none 3 7 [expX] [] [] []).period
      = some "Monthly" :=
  unknown_period_no_restriction "u1" "Monthly" none 3 7 [expX] [] [] []
    (by decide) (by decide)

end WorkerApp
